import Mathlib

/-!
Verification development for the openclaw-wizard provisioning backend.

The two API routes are shallowly embedded as pure Lean functions over an
explicit provider oracle (`Env`): every `fetch` to the cloud provider is a
field of the oracle, and a run of the route is the list of NDJSON events it
emits, the list of provider calls it issues, and the seconds it spends in
`setTimeout` sleeps.  JavaScript truthiness, `split(' ')`, `||` defaulting and
the `crypto.getRandomValues` hex encoding are modelled explicitly.
-/

namespace OCW

/-- Parsed `error` object of a failed provider response
(`err.error?.message`, `err.error?.code`). -/
structure ApiErr where
  message : Option String
  code : Option String
deriving DecidableEq

/-- Outcome of a `fetch` whose `res.ok` flag the route inspects: a 2xx
response with parsed payload, a non-2xx response with parsed error body, or a
thrown exception (network or JSON-shape failure). -/
inductive FetchR (α : Type) where
  | ok (a : α)
  | bad (e : ApiErr)
  | thrown (msg : String)
deriving DecidableEq

/-- Outcome of a `fetch` whose `res.ok` flag the route never inspects (the
status-poll and the key-listing): a parsed payload or a thrown exception. -/
inductive JsonR (α : Type) where
  | ok (a : α)
  | thrown (msg : String)
deriving DecidableEq

/-- One server record of the provider listing: `id`, `name`, `status` and the
optionally assigned `public_net?.ipv4?.ip`. -/
structure HServer where
  id : Nat
  name : String
  status : String
  ip : Option String
deriving DecidableEq

/-- One SSH key record of the provider listing (`id`, `public_key`). -/
structure SSHKeyRec where
  id : Nat
  public_key : String
deriving DecidableEq

/-- Payload of a successful server-create call: `createData.server.id`,
`createData.server.public_net.ipv4.ip`, `createData.root_password`. -/
structure CreateResp where
  id : Nat
  ip : String
  root_password : Option String
deriving DecidableEq

/-- JavaScript truthiness of an optional string (`undefined`, `null` and the
empty string are falsy). -/
def strTruthy : Option String → Bool
  | none => false
  | some s => decide (s ≠ "")

/-- JavaScript `o || d` for an optional string `o`: the default wins when `o`
is absent or empty. -/
def jsOr (o : Option String) (d : String) : String :=
  match o with
  | some s => if s = "" then d else s
  | none => d

/-- JavaScript `o || null` for an optional string: an empty string collapses
to `null`. -/
def jsOrNull (o : Option String) : Option String :=
  match o with
  | some s => if s = "" then none else some s
  | none => none

/-- Substring test on character lists, used to model
`String.prototype.includes`. -/
def isSubstr (pat : List Char) : List Char → Bool
  | [] => decide (pat = [])
  | c :: rest => pat.isPrefixOf (c :: rest) || isSubstr pat rest

/-- `s.includes(pat)` of JavaScript. -/
def containsSubstr (s pat : String) : Bool :=
  isSubstr pat.data s.data

/-- The create-failure classification of the provision route:
`err.error?.message?.includes('location') || err.error?.code === 'unavailable'`. -/
def isLocationError (e : ApiErr) : Bool :=
  (match e.message with
   | some m => containsSubstr m "location"
   | none => false) || decide (e.code = some "unavailable")

/-- Lowercase hexadecimal digit for a value below 16 (as produced by
`Number.prototype.toString(16)`). -/
def hexDigit (n : Nat) : Char :=
  if n < 10 then Char.ofNat (48 + n) else Char.ofNat (87 + n)

/-- `b.toString(16).padStart(2, '0')` for one byte of a `Uint8Array`
(values are below 256). -/
def byteHex (b : Nat) : String :=
  String.mk [hexDigit (b / 16 % 16), hexDigit (b % 16)]

/-- The gateway token fabricated for a brand-new server:
`Array.from(crypto.getRandomValues(new Uint8Array(32))).map(hex).join('')`,
with the 32 random bytes supplied by the oracle. -/
def gatewayToken : List Nat → String
  | [] => ""
  | b :: rest => byteHex b ++ gatewayToken rest

/-- Lowercase hexadecimal character test. -/
def isHexChar (c : Char) : Bool :=
  decide (('0' ≤ c ∧ c ≤ '9') ∨ ('a' ≤ c ∧ c ≤ 'f'))

/-- A 64-character lowercase-hex string. -/
def isHex64 (s : String) : Bool :=
  decide (s.length = 64) && s.data.all isHexChar

/-- Sentinel token of the provision route for an already-existing server. -/
def existingTokenSentinel : String := "(check server - see instructions below)"

/-- Sentinel token of the check-server route for an existing server. -/
def checkTokenSentinel : String := "(see instructions below)"

/-- Character-level splitting that keeps empty fields, with one field break at
every separator character (the semantics of JavaScript `split` with a
one-character separator when `p` tests for that character). -/
def splitChP (p : Char → Bool) : List Char → List (List Char)
  | [] => [[]]
  | c :: cs =>
    match splitChP p cs with
    | [] => [[]]
    | w :: ws => if p c then [] :: w :: ws else (c :: w) :: ws

/-- JavaScript `String.prototype.trim`: drop whitespace from both ends. -/
def jsTrim (s : String) : String :=
  String.mk (((s.data.dropWhile Char.isWhitespace).reverse.dropWhile Char.isWhitespace).reverse)

/-- JavaScript `s.startsWith(pre)`. -/
def strStartsWith (s pre : String) : Bool :=
  pre.data.isPrefixOf s.data

/-- `sshKey.trim().split(' ').slice(0, 2).join(' ')` of the provision route:
the search prefix used to resolve an already-uploaded SSH key. -/
def keyPre (sshKey : String) : String :=
  String.intercalate " " (((splitChP (fun c => c = ' ') (jsTrim sshKey).data).map String.mk).take 2)

/-- Modelled from the spec: the first two whitespace-delimited tokens of the
submitted key (type + base64 blob, ignoring any trailing comment), joined by
one space.  Stated only to compare the spec wording with `keyPre`. -/
def specFirstTwoTokens (k : String) : String :=
  String.intercalate " "
    ((((splitChP Char.isWhitespace k.data).filter (fun w => decide (w ≠ []))).map String.mk).take 2)

/-- The guard of the SSH-key step: `sshKey && sshKey.startsWith('ssh-')`. -/
def keyGate : Option String → Bool
  | none => false
  | some k => decide (k ≠ "") && strStartsWith k "ssh-"

/-- The `ssh_keys` field of the create payload: attached only when the
resolved key id is truthy (`if (sshKeyId) { payload.ssh_keys = [sshKeyId] }`). -/
def sshKeysField : Option Nat → Option (List Nat)
  | none => none
  | some n => if n = 0 then none else some [n]

/-- One NDJSON record of the provision stream. -/
structure ServerOut where
  ip : String
  name : String
  token : String
  rootPassword : Option String
  isExisting : Option Bool
  serverId : Nat
deriving DecidableEq

/-- A `progress`, `error` or `done` record of the provision stream. -/
inductive Event where
  | progress (msg : String)
  | error (msg : String)
  | done (server : ServerOut)
deriving DecidableEq

/-- `true` exactly for `progress` records. -/
def Event.isProgress : Event → Bool
  | .progress _ => true
  | _ => false

/-- `true` exactly for `error` records. -/
def Event.isError : Event → Bool
  | .error _ => true
  | _ => false

/-- `true` for the terminal records (`error` or `done`). -/
def isTerminalEvent (e : Event) : Bool :=
  !e.isProgress

/-- One HTTP call issued to the provider during a run. -/
inductive ApiCall where
  | listServers
  | uploadKey (name : String) (publicKey : String)
  | listKeys
  | createServer (location : String) (sshKeys : Option (List Nat))
  | getServer (serverId : Nat)
deriving DecidableEq

/-- `true` for server-create calls. -/
def isCreateCall : ApiCall → Bool
  | .createServer _ _ => true
  | _ => false

/-- `true` for key-upload calls. -/
def isUploadCall : ApiCall → Bool
  | .uploadKey _ _ => true
  | _ => false

/-- `true` for key-listing calls. -/
def isListKeysCall : ApiCall → Bool
  | .listKeys => true
  | _ => false

/-- `true` for status-poll calls. -/
def isPollCall : ApiCall → Bool
  | .getServer _ => true
  | _ => false

/-- The locations of the server-create calls of a run, in order. -/
def createdLocs (calls : List ApiCall) : List String :=
  calls.filterMap (fun c =>
    match c with
    | .createServer l _ => some l
    | _ => none)

/-- The `ssh_keys` field of the first server-create call of a run, when one
was issued. -/
def firstCreateKeys (calls : List ApiCall) : Option (Option (List Nat)) :=
  (calls.filterMap (fun c =>
    match c with
    | .createServer _ ks => some ks
    | _ => none)).head?

/-- The provider oracle for one provisioning request: the response of each
call the route may make, `Date.now()`, and the 32 bytes drawn from
`crypto.getRandomValues`. -/
structure Env where
  listServers : FetchR (Option (List HServer))
  uploadKey : FetchR Nat
  listKeys : JsonR (Option (List SSHKeyRec))
  create : String → FetchR CreateResp
  poll : Nat → JsonR String
  now : Nat
  randomBytes : List Nat

/-- The parsed body of a provision request, with the route defaults
(`serverName = 'openclaw'`, `location = 'fsn1'`, `serverType = 'cax11'`)
already applied. -/
structure ProvisionReq where
  apiToken : Option String
  sshKey : Option String
  serverName : String
  location : String
  serverType : String
deriving DecidableEq

/-- The observable outcome of one provision run: the emitted event stream (the
stream is closed when the function returns, so the last element is the last
record ever written), the provider calls made, and the seconds slept. -/
structure RunOut where
  events : List Event
  calls : List ApiCall
  sleepSeconds : Nat
deriving DecidableEq

/-- Result of one boot-wait polling loop: `running n` after `n` polls saw the
running status, `exhausted` when all polls of the bounded loop missed it, or
`crashed` when a poll threw. -/
inductive WaitOut where
  | running (polls : Nat)
  | exhausted
  | crashed (msg : String) (polls : Nat)
deriving DecidableEq

/-- The boot-wait loop shared by both paths of the provision route:
`for (let i = 0; i < 60; i++) { sleep 3s; poll; if running break }`, started
at index `i` with `fuel` iterations left. -/
def waitLoop (poll : Nat → JsonR String) (i fuel : Nat) : WaitOut :=
  match fuel with
  | 0 => .exhausted
  | Nat.succ f =>
    match poll i with
    | .thrown m => .crashed m (i + 1)
    | .ok s => if s = "running" then .running (i + 1) else waitLoop poll (i + 1) f

/-- Result of the SSH-key step: a resolved (possibly absent) key id together
with the events and calls the step produced, or a thrown exception that the
top-level catch will turn into the terminal error record. -/
inductive KeyOut where
  | ok (keyId : Option Nat) (evs : List Event) (calls : List ApiCall)
  | crashed (msg : String) (evs : List Event) (calls : List ApiCall)
deriving DecidableEq

/-- Events of a key-step result. -/
def KeyOut.evs : KeyOut → List Event
  | .ok _ evs _ => evs
  | .crashed _ evs _ => evs

/-- Calls of a key-step result. -/
def KeyOut.calls : KeyOut → List ApiCall
  | .ok _ _ calls => calls
  | .crashed _ _ calls => calls

/-- Step 3 of the provision route: upload the SSH key when the guard passes;
on a rejected upload, search the listed keys by `keyPre` and reuse a matching
id; with no match, proceed without a key. -/
def keyStep (env : Env) (sshKey : Option String) : KeyOut :=
  match sshKey with
  | none => .ok none [] []
  | some k =>
    match decide (k ≠ "") && strStartsWith k "ssh-" with
    | false => .ok none [] []
    | true =>
      let keyName := "openclaw-wizard-" ++ toString env.now
      let trimmed := jsTrim k
      match env.uploadKey with
      | .ok id =>
          .ok (some id)
            [.progress "🔐 Uploading SSH key...", .progress "✓ SSH key uploaded"]
            [.uploadKey keyName trimmed]
      | .thrown m =>
          .crashed m [.progress "🔐 Uploading SSH key..."] [.uploadKey keyName trimmed]
      | .bad _ =>
        match env.listKeys with
        | .thrown m =>
            .crashed m [.progress "🔐 Uploading SSH key..."]
              [.uploadKey keyName trimmed, .listKeys]
        | .ok keysOpt =>
          match (keysOpt.getD []).find? (fun r => strStartsWith r.public_key (keyPre k)) with
          | some r =>
              .ok (some r.id)
                [.progress "🔐 Uploading SSH key...", .progress "✓ Using existing SSH key"]
                [.uploadKey keyName trimmed, .listKeys]
          | none =>
              .ok none [.progress "🔐 Uploading SSH key..."]
                [.uploadKey keyName trimmed, .listKeys]

/-- Result of the create-with-fallback loop, with the events and calls it
produced: a creation at some location, a non-location-class failure (with the
provider error message), exhaustion of the fallback list, or a thrown
exception. -/
inductive CreateOut where
  | success (loc : String) (r : CreateResp) (evs : List Event) (calls : List ApiCall)
  | fatal (msg : Option String) (evs : List Event) (calls : List ApiCall)
  | exhausted (evs : List Event) (calls : List ApiCall)
  | crashed (msg : String) (evs : List Event) (calls : List ApiCall)
deriving DecidableEq

/-- Events of a create-loop result. -/
def CreateOut.evs : CreateOut → List Event
  | .success _ _ evs _ => evs
  | .fatal _ evs _ => evs
  | .exhausted evs _ => evs
  | .crashed _ evs _ => evs

/-- Calls of a create-loop result. -/
def CreateOut.calls : CreateOut → List ApiCall
  | .success _ _ _ calls => calls
  | .fatal _ _ calls => calls
  | .exhausted _ calls => calls
  | .crashed _ _ calls => calls

/-- Prepend one event and one call to a create-loop result (the bookkeeping of
one location-class failure before the loop moves on). -/
def CreateOut.prepend (w : Event) (c : ApiCall) : CreateOut → CreateOut
  | .success l r evs calls => .success l r (w :: evs) (c :: calls)
  | .fatal m evs calls => .fatal m (w :: evs) (c :: calls)
  | .exhausted evs calls => .exhausted (w :: evs) (c :: calls)
  | .crashed m evs calls => .crashed m (w :: evs) (c :: calls)

/-- Step 4 of the provision route: try each location in order; a
location-class rejection moves to the next location, any other rejection is
fatal, and an empty list means every location was exhausted. -/
def createLoop (create : String → FetchR CreateResp) (ks : Option (List Nat)) :
    List String → CreateOut
  | [] => .exhausted [] []
  | loc :: rest =>
    match create loc with
    | .ok r => .success loc r [] [.createServer loc ks]
    | .thrown m => .crashed m [] [.createServer loc ks]
    | .bad e =>
      match isLocationError e with
      | true =>
        (createLoop create ks rest).prepend
          (.progress ("⚠️ Location " ++ loc ++ " unavailable, trying next..."))
          (.createServer loc ks)
      | false => .fatal e.message [] [.createServer loc ks]

/-- The fixed fallback list of the provision route. -/
def allLocations : List String := ["fsn1", "nbg1", "hel1", "ash", "hil", "sin"]

/-- `[preferredLocation, ...allLocations.filter(l => l !== preferredLocation)]`. -/
def locations (preferredLocation : String) : List String :=
  preferredLocation :: allLocations.filter (fun l => decide (l ≠ preferredLocation))

/-- The tail of a successful new-server run: the bootstrap narration and the
`done` record with the freshly generated gateway token. -/
def finishEvents (env : Env) (req : ProvisionReq) (r : CreateResp) : List Event :=
  [.progress "🔧 Installing OpenClaw (this takes 2-3 minutes)...",
   .progress "✓ Installation complete!",
   .done ⟨r.ip, req.serverName, gatewayToken env.randomBytes,
          jsOrNull r.root_password, none, r.id⟩]

/-- Step 2 of the provision route when the listing contains a server with the
requested name: report it, fail without an IP, wait for `running` when still
booting (with the 60-attempt timeout error), and finish with the
`isExisting: true` done record. -/
def existingFlow (env : Env) (req : ProvisionReq) (srv : HServer) : RunOut :=
  let found := Event.progress ("✓ Found existing server \"" ++ req.serverName ++ "\"")
  match strTruthy srv.ip with
  | true =>
    let ip := srv.ip.getD ""
    let tailEvs : List Event :=
      [.progress "✓ Server is already set up!",
       .progress "Showing connection details...",
       .done ⟨ip, req.serverName, existingTokenSentinel, none, some true, srv.id⟩]
    match srv.status == "running" with
    | true => ⟨found :: Event.progress "✓ Server is running" :: tailEvs, [], 0⟩
    | false =>
      let waitEv := Event.progress ("⏳ Server is " ++ srv.status ++ ", waiting for it to be ready...")
      match waitLoop env.poll 0 60 with
      | .running n =>
          ⟨found :: waitEv :: Event.progress "✓ Server is running" :: tailEvs,
           List.replicate n (.getServer srv.id), 3 * n⟩
      | .exhausted =>
          ⟨[found, waitEv, .error "Server taking too long to start. Please check Hetzner Console."],
           List.replicate 60 (.getServer srv.id), 3 * 60⟩
      | .crashed m n =>
          ⟨[found, waitEv, .error m], List.replicate n (.getServer srv.id), 3 * n⟩
  | false =>
    ⟨[found, .error "Existing server has no IP. Please delete it in Hetzner Console and try again."],
     [], 0⟩

/-- Steps 3-7 of the provision route when no server with the requested name
exists: key step, create with fallback, boot wait (without a timeout error),
fixed bootstrap wait, and the `done` record with the generated token. -/
def newFlow (env : Env) (req : ProvisionReq) : RunOut :=
  let valid := Event.progress "✓ API token valid"
  match keyStep env req.sshKey with
  | .crashed m evs calls => ⟨valid :: evs ++ [.error m], calls, 0⟩
  | .ok keyId kevs kcalls =>
    let creating := Event.progress "🖥️ Creating server..."
    match createLoop env.create (sshKeysField keyId) (locations req.location) with
    | .crashed m cevs ccalls =>
        ⟨valid :: kevs ++ creating :: cevs ++ [.error m], kcalls ++ ccalls, 0⟩
    | .fatal msg cevs ccalls =>
        let em := jsOr msg "Unknown error"
        ⟨valid :: kevs ++ creating :: cevs ++ [.error ("Failed to create server: " ++ em)],
         kcalls ++ ccalls, 0⟩
    | .exhausted cevs ccalls =>
        ⟨valid :: kevs ++ creating :: cevs ++
           [.error "Failed to create server: No available locations. Please check your Hetzner account settings."],
         kcalls ++ ccalls, 0⟩
    | .success loc r cevs ccalls =>
      let created := Event.progress ("✓ Server created in " ++ loc ++ " (IP: " ++ r.ip ++ ")")
      let waiting := Event.progress "⏳ Waiting for server to boot..."
      let pre := valid :: kevs ++ creating :: cevs ++ [created, waiting]
      let preCalls := kcalls ++ ccalls
      match waitLoop env.poll 0 60 with
      | .crashed m n =>
          ⟨pre ++ [.error m], preCalls ++ List.replicate n (.getServer r.id), 3 * n⟩
      | .running n =>
          ⟨pre ++ Event.progress "✓ Server is running" :: finishEvents env req r,
           preCalls ++ List.replicate n (.getServer r.id), 3 * n + 120⟩
      | .exhausted =>
          ⟨pre ++ finishEvents env req r,
           preCalls ++ List.replicate 60 (.getServer r.id), 3 * 60 + 120⟩

/-- The provision route (`POST /api/provision`): the whole orchestration as a
function from the provider oracle and the parsed request to the emitted
stream, the calls made, and the time slept. -/
def provision (env : Env) (req : ProvisionReq) : RunOut :=
  match strTruthy req.apiToken with
  | false => ⟨[.error "API token is required"], [], 0⟩
  | true =>
    match env.listServers with
    | .thrown m =>
        ⟨[.progress "🔑 Verifying API token...", .error m], [.listServers], 0⟩
    | .bad _ =>
        ⟨[.progress "🔑 Verifying API token...",
          .error "Invalid API token. Please check and try again."], [.listServers], 0⟩
    | .ok serversOpt =>
      match (serversOpt.getD []).find? (fun s => s.name == req.serverName) with
      | some srv =>
        let rest := existingFlow env req srv
        ⟨Event.progress "🔑 Verifying API token..." :: rest.events,
         .listServers :: rest.calls, rest.sleepSeconds⟩
      | none =>
        let rest := newFlow env req
        ⟨Event.progress "🔑 Verifying API token..." :: rest.events,
         .listServers :: rest.calls, rest.sleepSeconds⟩

/-- The parsed body of a check-server request, with the default
`serverName = 'my-openclaw'` already applied. -/
structure CheckReq where
  apiToken : Option String
  serverName : String
deriving DecidableEq

/-- The `server` object of a positive check-server response. -/
structure CheckServerInfo where
  ip : String
  name : String
  serverId : Nat
  isExisting : Bool
  token : String
deriving DecidableEq

/-- The JSON body of a check-server response; absent JSON fields are `none`. -/
structure CheckResp where
  valid : Bool
  exists? : Option Bool
  error : Option String
  server : Option CheckServerInfo
deriving DecidableEq

/-- The check-server route (`POST /api/check-server`): validate the token by
listing servers and search the listing for a usable server with the requested
name.  Returns the response body and the provider calls made. -/
def checkServer (listRes : FetchR (Option (List HServer))) (req : CheckReq) :
    CheckResp × List ApiCall :=
  match strTruthy req.apiToken with
  | false => (⟨false, none, some "API token is required", none⟩, [])
  | true =>
    match listRes with
    | .thrown m => (⟨false, none, some m, none⟩, [.listServers])
    | .bad _ => (⟨false, none, some "Invalid API token", none⟩, [.listServers])
    | .ok serversOpt =>
      match (serversOpt.getD []).find? (fun s => s.name == req.serverName) with
      | some srv =>
        match srv.status == "running" && strTruthy srv.ip with
        | true =>
          (⟨true, some true, none,
            some ⟨srv.ip.getD "", srv.name, srv.id, true, checkTokenSentinel⟩⟩,
           [.listServers])
        | false => (⟨true, some false, none, none⟩, [.listServers])
      | none => (⟨true, some false, none, none⟩, [.listServers])

/-- A well-formed provision stream: some progress records, then exactly one
terminal record which closes the stream; a terminal `done` record carries
either the existing-server sentinel (with `isExisting: true`) or the freshly
generated gateway token (with no `isExisting` field). -/
def StreamOK (rnd : List Nat) (evs : List Event) : Prop :=
  ∃ ps t, evs = ps ++ [t] ∧ (∀ e ∈ ps, Event.isProgress e = true) ∧
    isTerminalEvent t = true ∧
    (∀ d, t = Event.done d →
      (d.isExisting = some true ∧ d.token = existingTokenSentinel) ∨
      (d.isExisting = none ∧ d.token = gatewayToken rnd))

/-! ## Concrete oracles used by the witness theorems -/

/-- A base oracle: failing provider, no randomness. -/
def env0 : Env :=
  ⟨FetchR.ok none, FetchR.ok 0, JsonR.ok none, fun _ => FetchR.thrown "net",
   fun _ => JsonR.thrown "net", 0, []⟩

/-- Oracle for the new-server timeout scenario: empty listing, creation
succeeds at the first location, and the status poll never reports
`running`. -/
def envC4 : Env :=
  { env0 with
      listServers := FetchR.ok (some []),
      create := fun _ => FetchR.ok ⟨42, "9.9.9.9", none⟩,
      poll := fun _ => JsonR.ok "initializing",
      randomBytes := List.replicate 32 0 }

/-- Oracle for the existing-server timeout scenario: the listing holds the
requested server still `initializing`, and the poll never reports
`running`. -/
def envC4x : Env :=
  { envC4 with
      listServers := FetchR.ok (some [⟨42, "openclaw", "initializing", some "9.9.9.9"⟩]) }

/-- The provision request used by the timeout scenarios. -/
def reqC4 : ProvisionReq := ⟨some "tok", none, "openclaw", "fsn1", "cax11"⟩

/-- Oracle for the key-resolution scenarios: empty listing, key upload
rejected as duplicate, one stored key on the account, creation succeeding at
the first location and an immediately running server. -/
def envC5 : Env :=
  { env0 with
      listServers := FetchR.ok (some []),
      uploadKey := FetchR.bad ⟨some "SSH key with the same fingerprint already exists", none⟩,
      listKeys := JsonR.ok (some [⟨7, "ssh-ed25519 AAAA user@host"⟩]),
      create := fun _ => FetchR.ok ⟨42, "9.9.9.9", none⟩,
      poll := fun _ => JsonR.ok "running",
      randomBytes := List.replicate 32 0 }

/-- A submitted key whose first two whitespace-delimited tokens are separated
by a tab rather than a single space. -/
def tabKey : String := "ssh-ed25519\tAAAA x"

/-- Provision request submitting `tabKey`. -/
def reqC5tab : ProvisionReq := ⟨some "tok", some tabKey, "openclaw", "fsn1", "cax11"⟩

/-- Oracle whose create call always fails with a non-location-class error. -/
def envC8F : Env :=
  { env0 with
      listServers := FetchR.ok (some []),
      create := fun _ => FetchR.bad ⟨some "server limit exceeded", none⟩ }

/-- Oracle whose create call always fails with the `unavailable` error
code. -/
def envC8X : Env :=
  { env0 with
      listServers := FetchR.ok (some []),
      create := fun _ => FetchR.bad ⟨none, some "unavailable"⟩ }

/-- Request used by the create-failure scenarios. -/
def reqC8 : ProvisionReq := ⟨some "tok", none, "openclaw", "fsn1", "cax11"⟩

/-! ## Helper lemmas -/

lemma find?_of_nodup_names (n : String) :
    ∀ (l : List HServer), (l.map HServer.name).Nodup →
      ∀ s ∈ l, s.name = n → l.find? (fun x => x.name == n) = some s := by
  intro l
  induction l with
  | nil => intro _ s hs; exact absurd hs (List.not_mem_nil s)
  | cons a t ih =>
    intro hnd s hs hsn
    rcases List.mem_cons.mp hs with rfl | hst
    · simp [List.find?_cons, hsn]
    · have hna : ¬ a.name = n := by
        intro h
        have hmem : a.name ∈ t.map HServer.name :=
          List.mem_map.mpr ⟨s, hst, by rw [hsn, h]⟩
        exact (List.nodup_cons.mp hnd).1 hmem
      rw [List.find?_cons]
      have : (a.name == n) = false := beq_eq_false_iff_ne.mpr hna
      rw [this]
      exact ih (List.nodup_cons.mp hnd).2 s hst hsn

lemma waitLoop_exhausted_of (poll : Nat → JsonR String) :
    ∀ fuel i, (∀ j, i ≤ j → j < i + fuel → ∃ s, poll j = JsonR.ok s ∧ s ≠ "running") →
      waitLoop poll i fuel = WaitOut.exhausted := by
  intro fuel
  induction fuel with
  | zero => intro i _; rfl
  | succ f ih =>
    intro i h
    obtain ⟨s, hs, hns⟩ := h i le_rfl (by omega)
    rw [waitLoop, hs]
    simp only [if_neg hns]
    exact ih (i + 1) (fun j h1 h2 => h j (by omega) (by omega))

lemma waitLoop_running_first (poll : Nat → JsonR String) (f : Nat)
    (h : poll 0 = JsonR.ok "running") :
    waitLoop poll 0 (f + 1) = WaitOut.running 1 := by
  rw [waitLoop, h]
  simp

lemma hexDigit_isHex (n : Nat) (h : n < 16) : isHexChar (hexDigit n) = true := by
  interval_cases n <;> decide

lemma byteHex_hex (b : Nat) : (byteHex b).data.all isHexChar = true := by
  simp only [byteHex, String.data, List.all_cons, List.all_nil, Bool.and_true]
  rw [hexDigit_isHex _ (Nat.mod_lt _ (by norm_num)),
      hexDigit_isHex _ (Nat.mod_lt _ (by norm_num))]
  rfl

lemma byteHex_length (b : Nat) : (byteHex b).length = 2 := rfl

lemma gatewayToken_length : ∀ bytes : List Nat, (gatewayToken bytes).length = 2 * bytes.length := by
  intro bytes
  induction bytes with
  | nil => rfl
  | cons b rest ih =>
    rw [gatewayToken, String.length_append, ih, byteHex_length]
    simp only [List.length_cons]
    omega

lemma gatewayToken_hex : ∀ bytes : List Nat, (gatewayToken bytes).data.all isHexChar = true := by
  intro bytes
  induction bytes with
  | nil => rfl
  | cons b rest ih =>
    rw [gatewayToken]
    have : (byteHex b ++ gatewayToken rest).data = (byteHex b).data ++ (gatewayToken rest).data := rfl
    rw [List.all_eq_true] at *
    intro c hc
    rw [this] at hc
    rcases List.mem_append.mp hc with h1 | h2
    · exact (List.all_eq_true.mp (byteHex_hex b)) c h1
    · exact ih c h2

lemma isHex64_gatewayToken (bytes : List Nat) (h : bytes.length = 32) :
    isHex64 (gatewayToken bytes) = true := by
  rw [isHex64, gatewayToken_hex, gatewayToken_length, h]
  rfl

lemma isHex64_sentinel : isHex64 existingTokenSentinel = false := by decide

lemma CreateOut.evs_prepend (w : Event) (c : ApiCall) (o : CreateOut) :
    (o.prepend w c).evs = w :: o.evs := by
  cases o <;> rfl

lemma CreateOut.calls_prepend (w : Event) (c : ApiCall) (o : CreateOut) :
    (o.prepend w c).calls = c :: o.calls := by
  cases o <;> rfl

lemma keyStep_evs_progress (env : Env) (k : Option String) :
    ∀ e ∈ (keyStep env k).evs, e.isProgress = true := by
  cases k with
  | none => simp [keyStep, KeyOut.evs]
  | some s =>
    simp only [keyStep]
    cases decide (s ≠ "") && strStartsWith s "ssh-" with
    | false => simp [KeyOut.evs]
    | true =>
      cases env.uploadKey with
      | ok id => simp [KeyOut.evs, Event.isProgress]
      | thrown m => simp [KeyOut.evs, Event.isProgress]
      | bad e =>
        cases env.listKeys with
        | thrown m => simp [KeyOut.evs, Event.isProgress]
        | ok keysOpt =>
          cases hf : (keysOpt.getD []).find? (fun r => strStartsWith r.public_key (keyPre s)) with
          | some r => simp [hf, KeyOut.evs, Event.isProgress]
          | none => simp [hf, KeyOut.evs, Event.isProgress]

lemma keyStep_gate_false (env : Env) (k : Option String) (h : keyGate k = false) :
    keyStep env k = KeyOut.ok none [] [] := by
  cases k with
  | none => rfl
  | some s =>
    rw [keyGate] at h
    simp only [keyStep, h]

lemma keyStep_calls_no_create (env : Env) (k : Option String) :
    ∀ c ∈ (keyStep env k).calls, isCreateCall c = false := by
  cases k with
  | none => simp [keyStep, KeyOut.calls]
  | some s =>
    simp only [keyStep]
    cases decide (s ≠ "") && strStartsWith s "ssh-" with
    | false => simp [KeyOut.calls]
    | true =>
      cases env.uploadKey with
      | ok id => simp [KeyOut.calls, isCreateCall]
      | thrown m => simp [KeyOut.calls, isCreateCall]
      | bad e =>
        cases env.listKeys with
        | thrown m => simp [KeyOut.calls, isCreateCall]
        | ok keysOpt =>
          cases hf : (keysOpt.getD []).find? (fun r => strStartsWith r.public_key (keyPre s)) with
          | some r => simp [hf, KeyOut.calls, isCreateCall]
          | none => simp [hf, KeyOut.calls, isCreateCall]

lemma createLoop_evs_progress (create : String → FetchR CreateResp) (ks : Option (List Nat)) :
    ∀ locs, ∀ e ∈ (createLoop create ks locs).evs, e.isProgress = true := by
  intro locs
  induction locs with
  | nil => simp [createLoop, CreateOut.evs]
  | cons loc rest ih =>
    intro e he
    rw [createLoop] at he
    revert he
    cases create loc with
    | ok r => simp [CreateOut.evs]
    | thrown m => simp [CreateOut.evs]
    | bad err =>
      cases hl : isLocationError err with
      | true =>
        simp only [hl, CreateOut.evs_prepend, List.mem_cons]
        rintro (rfl | he2)
        · rfl
        · exact ih e he2
      | false => simp [hl, CreateOut.evs]

lemma createLoop_calls_create (create : String → FetchR CreateResp) (ks : Option (List Nat)) :
    ∀ locs, ∀ c ∈ (createLoop create ks locs).calls, isCreateCall c = true := by
  intro locs
  induction locs with
  | nil => simp [createLoop, CreateOut.calls]
  | cons loc rest ih =>
    intro c hc
    rw [createLoop] at hc
    revert hc
    cases create loc with
    | ok r => simp only [CreateOut.calls, List.mem_singleton]; rintro rfl; rfl
    | thrown m => simp only [CreateOut.calls, List.mem_singleton]; rintro rfl; rfl
    | bad err =>
      cases hl : isLocationError err with
      | true =>
        simp only [hl, CreateOut.calls_prepend, List.mem_cons]
        rintro (rfl | hc2)
        · rfl
        · exact ih c hc2
      | false =>
        simp only [hl, CreateOut.calls, List.mem_singleton]
        rintro rfl; rfl

lemma createLoop_head_call (create : String → FetchR CreateResp) (ks : Option (List Nat))
    (loc : String) (rest : List String) :
    (createLoop create ks (loc :: rest)).calls.head? = some (ApiCall.createServer loc ks) := by
  rw [createLoop]
  cases create loc with
  | ok r => rfl
  | thrown m => rfl
  | bad e =>
    cases hl : isLocationError e with
    | true => simp [hl, CreateOut.calls_prepend]
    | false => simp [hl, CreateOut.calls]

lemma createLoop_allFail (create : String → FetchR CreateResp) (ks : Option (List Nat))
    (e : ApiErr) (hl : isLocationError e = true) :
    ∀ locs, (∀ l ∈ locs, create l = FetchR.bad e) →
      createLoop create ks locs =
        CreateOut.exhausted
          (locs.map fun l => Event.progress ("⚠️ Location " ++ l ++ " unavailable, trying next..."))
          (locs.map fun l => ApiCall.createServer l ks) := by
  intro locs
  induction locs with
  | nil => intro _; rfl
  | cons loc rest ih =>
    intro h
    rw [createLoop, h loc (List.mem_cons_self loc rest),
        ih (fun l hl2 => h l (List.mem_cons_of_mem _ hl2))]
    simp [hl, CreateOut.prepend]

lemma createdLocs_cons_listServers (calls : List ApiCall) :
    createdLocs (ApiCall.listServers :: calls) = createdLocs calls := by
  simp [createdLocs, List.filterMap_cons]

lemma createdLocs_map (ks : Option (List Nat)) :
    ∀ locs : List String, createdLocs (locs.map fun l => ApiCall.createServer l ks) = locs := by
  intro locs
  induction locs with
  | nil => rfl
  | cons a t ih =>
    rw [createdLocs] at *
    simp only [List.map_cons, List.filterMap_cons]
    rw [ih]

/-! ## Stream shape: every run is progress records followed by one terminal record -/

lemma streamOK_error (rnd : List Nat) (m : String) : StreamOK rnd [Event.error m] :=
  ⟨[], Event.error m, rfl, by simp, rfl, fun d h => nomatch h⟩

lemma streamOK_progress_cons (rnd : List Nat) (m : String) (evs : List Event)
    (h : StreamOK rnd evs) : StreamOK rnd (Event.progress m :: evs) := by
  obtain ⟨ps, t, h1, h2, h3, h4⟩ := h
  refine ⟨Event.progress m :: ps, t, by rw [h1]; rfl, ?_, h3, h4⟩
  intro e he
  rcases List.mem_cons.mp he with rfl | he2
  · rfl
  · exact h2 e he2

lemma streamOK_progress_append (rnd : List Nat) (l : List Event) (evs : List Event)
    (hl : ∀ e ∈ l, Event.isProgress e = true)
    (h : StreamOK rnd evs) : StreamOK rnd (l ++ evs) := by
  induction l with
  | nil => simpa using h
  | cons a rest ih =>
    have ha : a.isProgress = true := hl a (List.mem_cons_self a rest)
    have : StreamOK rnd (rest ++ evs) := ih (fun e he => hl e (List.mem_cons_of_mem _ he))
    cases a with
    | progress m => exact streamOK_progress_cons rnd m _ this
    | error m => exact absurd ha (by simp [Event.isProgress])
    | done d => exact absurd ha (by simp [Event.isProgress])

lemma streamOK_done (rnd : List Nat) (d : ServerOut)
    (h : (d.isExisting = some true ∧ d.token = existingTokenSentinel) ∨
         (d.isExisting = none ∧ d.token = gatewayToken rnd)) :
    StreamOK rnd [Event.done d] :=
  ⟨[], Event.done d, rfl, by simp, rfl, fun d2 h2 => by injection h2 with h3; rw [← h3]; exact h⟩

lemma finishEvents_streamOK (env : Env) (req : ProvisionReq) (r : CreateResp) :
    StreamOK env.randomBytes (finishEvents env req r) := by
  rw [finishEvents]
  refine streamOK_progress_cons _ _ _ (streamOK_progress_cons _ _ _ ?_)
  exact streamOK_done _ _ (Or.inr ⟨rfl, rfl⟩)

lemma existingFlow_streamOK (env : Env) (req : ProvisionReq) (srv : HServer) :
    StreamOK env.randomBytes (existingFlow env req srv).events := by
  rw [existingFlow]
  cases strTruthy srv.ip with
  | false =>
    exact streamOK_progress_cons _ _ _ (streamOK_error _ _)
  | true =>
    cases srv.status == "running" with
    | true =>
      refine streamOK_progress_cons _ _ _ (streamOK_progress_cons _ _ _
        (streamOK_progress_cons _ _ _ (streamOK_progress_cons _ _ _ ?_)))
      exact streamOK_done _ _ (Or.inl ⟨rfl, rfl⟩)
    | false =>
      cases waitLoop env.poll 0 60 with
      | running n =>
        refine streamOK_progress_cons _ _ _ (streamOK_progress_cons _ _ _
          (streamOK_progress_cons _ _ _ (streamOK_progress_cons _ _ _
            (streamOK_progress_cons _ _ _ ?_))))
        exact streamOK_done _ _ (Or.inl ⟨rfl, rfl⟩)
      | exhausted =>
        exact streamOK_progress_cons _ _ _ (streamOK_progress_cons _ _ _ (streamOK_error _ _))
      | crashed m n =>
        exact streamOK_progress_cons _ _ _ (streamOK_progress_cons _ _ _ (streamOK_error _ _))

lemma newFlow_streamOK (env : Env) (req : ProvisionReq) :
    StreamOK env.randomBytes (newFlow env req).events := by
  rw [newFlow]
  cases hk : keyStep env req.sshKey with
  | crashed m kevs kcalls =>
    have hkevs : ∀ e ∈ kevs, Event.isProgress e = true := by
      have := keyStep_evs_progress env req.sshKey
      rw [hk] at this
      exact this
    dsimp only
    simp only [List.cons_append, List.append_assoc]
    exact streamOK_progress_cons _ _ _ (streamOK_progress_append _ _ _ hkevs (streamOK_error _ _))
  | ok keyId kevs kcalls =>
    have hkevs : ∀ e ∈ kevs, Event.isProgress e = true := by
      have := keyStep_evs_progress env req.sshKey
      rw [hk] at this
      exact this
    dsimp only
    cases hc : createLoop env.create (sshKeysField keyId) (locations req.location) with
    | crashed m cevs ccalls =>
      have hcevs : ∀ e ∈ cevs, Event.isProgress e = true := by
        have := createLoop_evs_progress env.create (sshKeysField keyId) (locations req.location)
        rw [hc] at this
        exact this
      dsimp only
      simp only [List.cons_append, List.append_assoc]
      exact streamOK_progress_cons _ _ _ (streamOK_progress_append _ _ _ hkevs
        (streamOK_progress_cons _ _ _ (streamOK_progress_append _ _ _ hcevs (streamOK_error _ _))))
    | fatal msg cevs ccalls =>
      have hcevs : ∀ e ∈ cevs, Event.isProgress e = true := by
        have := createLoop_evs_progress env.create (sshKeysField keyId) (locations req.location)
        rw [hc] at this
        exact this
      dsimp only
      simp only [List.cons_append, List.append_assoc]
      exact streamOK_progress_cons _ _ _ (streamOK_progress_append _ _ _ hkevs
        (streamOK_progress_cons _ _ _ (streamOK_progress_append _ _ _ hcevs (streamOK_error _ _))))
    | exhausted cevs ccalls =>
      have hcevs : ∀ e ∈ cevs, Event.isProgress e = true := by
        have := createLoop_evs_progress env.create (sshKeysField keyId) (locations req.location)
        rw [hc] at this
        exact this
      dsimp only
      simp only [List.cons_append, List.append_assoc]
      exact streamOK_progress_cons _ _ _ (streamOK_progress_append _ _ _ hkevs
        (streamOK_progress_cons _ _ _ (streamOK_progress_append _ _ _ hcevs (streamOK_error _ _))))
    | success loc r cevs ccalls =>
      have hcevs : ∀ e ∈ cevs, Event.isProgress e = true := by
        have := createLoop_evs_progress env.create (sshKeysField keyId) (locations req.location)
        rw [hc] at this
        exact this
      dsimp only
      cases waitLoop env.poll 0 60 with
      | crashed m n =>
        dsimp only
        simp only [List.cons_append, List.append_assoc]
        exact streamOK_progress_cons _ _ _ (streamOK_progress_append _ _ _ hkevs
          (streamOK_progress_cons _ _ _ (streamOK_progress_append _ _ _ hcevs
            (streamOK_progress_cons _ _ _ (streamOK_progress_cons _ _ _ (streamOK_error _ _))))))
      | running n =>
        dsimp only
        simp only [List.cons_append, List.append_assoc]
        exact streamOK_progress_cons _ _ _ (streamOK_progress_append _ _ _ hkevs
          (streamOK_progress_cons _ _ _ (streamOK_progress_append _ _ _ hcevs
            (streamOK_progress_cons _ _ _ (streamOK_progress_cons _ _ _
              (streamOK_progress_cons _ _ _ (finishEvents_streamOK env req r)))))))
      | exhausted =>
        dsimp only
        simp only [List.cons_append, List.append_assoc]
        exact streamOK_progress_cons _ _ _ (streamOK_progress_append _ _ _ hkevs
          (streamOK_progress_cons _ _ _ (streamOK_progress_append _ _ _ hcevs
            (streamOK_progress_cons _ _ _ (streamOK_progress_cons _ _ _
              (finishEvents_streamOK env req r))))))


lemma provision_streamOK (env : Env) (req : ProvisionReq) :
    StreamOK env.randomBytes (provision env req).events := by
  rw [provision]
  cases strTruthy req.apiToken with
  | false => exact streamOK_error _ _
  | true =>
    cases env.listServers with
    | thrown m => exact streamOK_progress_cons _ _ _ (streamOK_error _ _)
    | bad e => exact streamOK_progress_cons _ _ _ (streamOK_error _ _)
    | ok so =>
      dsimp only
      cases hf : (so.getD []).find? (fun s => s.name == req.serverName) with
      | some srv =>
        simp only [hf]
        exact streamOK_progress_cons _ _ _ (existingFlow_streamOK env req srv)
      | none =>
        simp only [hf]
        exact streamOK_progress_cons _ _ _ (newFlow_streamOK env req)

/-! ## Claim theorems -/

/-- C2: every provisioning run emits a stream consisting of zero or more
progress records followed by exactly one terminal record (error or done); the
terminal record is the last element of the stream (the model closes the stream
when `provision` returns, so nothing follows it). -/
theorem c2_stream_termination (env : Env) (req : ProvisionReq) :
    ∃ ps t, (provision env req).events = ps ++ [t] ∧
      (∀ e ∈ ps, Event.isProgress e = true) ∧ isTerminalEvent t = true := by
  obtain ⟨ps, t, h1, h2, h3, _⟩ := provision_streamOK env req
  exact ⟨ps, t, h1, h2, h3⟩

/-- C7: any `done` record of a provision run either carries
`isExisting = true` together with the fixed sentinel token (which is not a
64-hex string), or carries no `isExisting` field together with the freshly
generated 64-hex gateway token built from the 32 oracle-supplied random
bytes. -/
theorem c7_token_distinction (env : Env) (req : ProvisionReq) (d : ServerOut)
    (hmem : Event.done d ∈ (provision env req).events)
    (hlen : env.randomBytes.length = 32) :
    (d.isExisting = some true → d.token = existingTokenSentinel ∧ isHex64 d.token = false) ∧
    (d.isExisting = none → d.token = gatewayToken env.randomBytes ∧ isHex64 d.token = true) := by
  obtain ⟨ps, t, h1, h2, h3, h4⟩ := provision_streamOK env req
  rw [h1] at hmem
  rcases List.mem_append.mp hmem with hin | hin
  · exact absurd (h2 _ hin) (by simp [Event.isProgress])
  · have ht : t = Event.done d := (List.mem_singleton.mp hin).symm
    rcases h4 d ht with ⟨he, htok⟩ | ⟨he, htok⟩
    · refine ⟨fun _ => ⟨htok, by rw [htok]; exact isHex64_sentinel⟩, fun hnone => ?_⟩
      rw [he] at hnone
      exact absurd hnone (by simp)
    · refine ⟨fun hsome => ?_, fun _ => ⟨htok, by rw [htok]; exact isHex64_gatewayToken _ hlen⟩⟩
      rw [he] at hsome
      exact absurd hsome (by simp)

/-- C7 witness: a run against a listing holding a running `openclaw` server
reaches a `done` record, and the theorem applies to it. -/
theorem c7_witness :
    (Event.done ⟨"1.2.3.4", "openclaw", existingTokenSentinel, none, some true, 1⟩ ∈
      (provision
        { env0 with
            listServers := FetchR.ok (some [⟨1, "openclaw", "running", some "1.2.3.4"⟩]),
            randomBytes := List.replicate 32 0 }
        ⟨some "tok", none, "openclaw", "fsn1", "cax11"⟩).events) ∧
    ((⟨"1.2.3.4", "openclaw", existingTokenSentinel, none, some true, 1⟩ : ServerOut).isExisting
      = some true →
      (⟨"1.2.3.4", "openclaw", existingTokenSentinel, none, some true, 1⟩ : ServerOut).token
        = existingTokenSentinel) := by
  refine ⟨by decide, fun h => ?_⟩
  exact ((c7_token_distinction
    { env0 with
        listServers := FetchR.ok (some [⟨1, "openclaw", "running", some "1.2.3.4"⟩]),
        randomBytes := List.replicate 32 0 }
    ⟨some "tok", none, "openclaw", "fsn1", "cax11"⟩
    ⟨"1.2.3.4", "openclaw", existingTokenSentinel, none, some true, 1⟩
    (by decide) (by decide)).1 h).1

/-- C9: a request body without an API token makes the check route answer
`{valid:false, error:'API token is required'}` and makes the provision route
emit the single terminal error record `API token is required`; neither route
issues any provider call (the call list is empty), for every provider
oracle. -/
theorem c9_missing_token (lr : FetchR (Option (List HServer))) (reqC : CheckReq)
    (env : Env) (reqP : ProvisionReq)
    (h1 : strTruthy reqC.apiToken = false) (h2 : strTruthy reqP.apiToken = false) :
    checkServer lr reqC = (⟨false, none, some "API token is required", none⟩, []) ∧
    provision env reqP = ⟨[Event.error "API token is required"], [], 0⟩ := by
  constructor
  · simp only [checkServer, h1]
  · simp only [provision, h2]

/-- C9 witness: both routes at a token-less request. -/
theorem c9_missing_token_witness :
    checkServer (FetchR.ok none) ⟨none, "x"⟩ =
      (⟨false, none, some "API token is required", none⟩, []) ∧
    provision env0 ⟨none, none, "openclaw", "fsn1", "cax11"⟩ =
      ⟨[Event.error "API token is required"], [], 0⟩ :=
  c9_missing_token (FetchR.ok none) ⟨none, "x"⟩ env0
    ⟨none, none, "openclaw", "fsn1", "cax11"⟩ rfl rfl

/-- C1: when the listing behind a provision request contains a server whose
name equals the requested resource name (names in a provider listing are
unique) with status `running` and a truthy public IPv4, the run issues no
server-create and no key-upload call and its terminal event is the `done`
record with `isExisting = true`. -/
theorem c1_idempotent_reentry (env : Env) (req : ProvisionReq)
    (servers : List HServer) (s : HServer)
    (htok : strTruthy req.apiToken = true)
    (hlist : env.listServers = FetchR.ok (some servers))
    (hnodup : (servers.map HServer.name).Nodup)
    (hmem : s ∈ servers) (hname : s.name = req.serverName)
    (hrun : s.status = "running") (hip : strTruthy s.ip = true) :
    ((provision env req).calls.all fun c => !isCreateCall c && !isUploadCall c) = true ∧
    (provision env req).events.getLast? =
      some (Event.done
        ⟨s.ip.getD "", req.serverName, existingTokenSentinel, none, some true, s.id⟩) := by
  have hfind : servers.find? (fun x => x.name == req.serverName) = some s :=
    find?_of_nodup_names req.serverName servers hnodup s hmem hname
  simp only [provision, htok, hlist, Option.getD_some, hfind, existingFlow, hip, hrun,
    beq_self_eq_true]
  constructor
  · rfl
  · simp [List.getLast?]

/-- C1 witness: a concrete listing holding the running requested server. -/
theorem c1_idempotent_reentry_witness :
    ((provision
        { env0 with listServers := FetchR.ok (some [⟨7, "openclaw", "running", some "5.6.7.8"⟩]) }
        ⟨some "tok", some "ssh-ed25519 AAAA", "openclaw", "fsn1", "cax11"⟩).calls.all
      fun c => !isCreateCall c && !isUploadCall c) = true ∧
    (provision
        { env0 with listServers := FetchR.ok (some [⟨7, "openclaw", "running", some "5.6.7.8"⟩]) }
        ⟨some "tok", some "ssh-ed25519 AAAA", "openclaw", "fsn1", "cax11"⟩).events.getLast? =
      some (Event.done
        ⟨(some "5.6.7.8").getD "", "openclaw", existingTokenSentinel, none, some true, 7⟩) :=
  c1_idempotent_reentry _ _ [⟨7, "openclaw", "running", some "5.6.7.8"⟩]
    ⟨7, "openclaw", "running", some "5.6.7.8"⟩
    rfl rfl (by decide) (by decide) rfl rfl rfl

/-- C6: with a valid token, the check route reports `exists = true` exactly
when the listing contains a server with the requested name (unique in the
listing), status `running` and a truthy public IPv4; a name match that is not
usable yields `{valid:true, exists:false}`, and a rejected listing yields
`{valid:false, error:'Invalid API token'}`. -/
theorem c6_check_semantics (req : CheckReq) (servers : List HServer) (e : ApiErr)
    (htok : strTruthy req.apiToken = true)
    (hnodup : (servers.map HServer.name).Nodup) :
    (((checkServer (FetchR.ok (some servers)) req).1.exists? = some true) ↔
      ∃ s ∈ servers, s.name = req.serverName ∧ s.status = "running" ∧ strTruthy s.ip = true) ∧
    ((¬∃ s ∈ servers, s.name = req.serverName ∧ s.status = "running" ∧ strTruthy s.ip = true) →
      (checkServer (FetchR.ok (some servers)) req).1 = ⟨true, some false, none, none⟩) ∧
    (checkServer (FetchR.bad e) req).1 = ⟨false, none, some "Invalid API token", none⟩ := by
  have hbad : (checkServer (FetchR.bad e) req).1 = ⟨false, none, some "Invalid API token", none⟩ := by
    simp only [checkServer, htok]
  cases hf : servers.find? (fun x => x.name == req.serverName) with
  | none =>
    have hresp : (checkServer (FetchR.ok (some servers)) req).1 = ⟨true, some false, none, none⟩ := by
      simp only [checkServer, htok, Option.getD_some, hf]
    have hno : ¬∃ s ∈ servers, s.name = req.serverName ∧ s.status = "running" ∧
        strTruthy s.ip = true := by
      rintro ⟨s, hs, hn, -, -⟩
      have := List.find?_eq_none.mp hf s hs
      simp [hn] at this
    refine ⟨?_, fun _ => hresp, hbad⟩
    rw [hresp]
    exact ⟨fun h => absurd h (by simp), fun h => absurd h hno⟩
  | some srv =>
    have hsm : srv ∈ servers := List.mem_of_find?_eq_some hf
    have hsn : srv.name = req.serverName := by
      have := List.find?_some hf
      exact beq_iff_eq.mp this
    cases hcond : (srv.status == "running" && strTruthy srv.ip) with
    | true =>
      rw [Bool.and_eq_true] at hcond
      have hrun : srv.status = "running" := beq_iff_eq.mp hcond.1
      have hip : strTruthy srv.ip = true := hcond.2
      have hresp : (checkServer (FetchR.ok (some servers)) req).1 =
          ⟨true, some true, none,
           some ⟨srv.ip.getD "", srv.name, srv.id, true, checkTokenSentinel⟩⟩ := by
        simp only [checkServer, htok, Option.getD_some, hf, hrun, hip, beq_self_eq_true,
          Bool.and_self]
      have hex : ∃ s ∈ servers, s.name = req.serverName ∧ s.status = "running" ∧
          strTruthy s.ip = true := ⟨srv, hsm, hsn, hrun, hip⟩
      refine ⟨?_, fun hno => absurd hex hno, hbad⟩
      rw [hresp]
      exact ⟨fun _ => hex, fun _ => rfl⟩
    | false =>
      have hresp : (checkServer (FetchR.ok (some servers)) req).1 =
          ⟨true, some false, none, none⟩ := by
        simp only [checkServer, htok, Option.getD_some, hf, hcond]
      have hno : ¬∃ s ∈ servers, s.name = req.serverName ∧ s.status = "running" ∧
          strTruthy s.ip = true := by
        rintro ⟨s, hs, hn, hr, hi⟩
        have hfs : servers.find? (fun x => x.name == req.serverName) = some s :=
          find?_of_nodup_names req.serverName servers hnodup s hs hn
        rw [hf] at hfs
        injection hfs with hsrv
        rw [← hsrv] at hr hi
        simp [hr, hi] at hcond
      refine ⟨?_, fun _ => hresp, hbad⟩
      rw [hresp]
      exact ⟨fun h => absurd h (by simp), fun h => absurd h hno⟩

/-- C6 witness: a listing with one still-initializing matching server. -/
theorem c6_check_semantics_witness :
    (((checkServer (FetchR.ok (some [⟨3, "my-openclaw", "initializing", none⟩]))
        ⟨some "tok", "my-openclaw"⟩).1.exists? = some true) ↔
      ∃ s ∈ [(⟨3, "my-openclaw", "initializing", none⟩ : HServer)],
        s.name = "my-openclaw" ∧ s.status = "running" ∧ strTruthy s.ip = true) ∧
    ((¬∃ s ∈ [(⟨3, "my-openclaw", "initializing", none⟩ : HServer)],
        s.name = "my-openclaw" ∧ s.status = "running" ∧ strTruthy s.ip = true) →
      (checkServer (FetchR.ok (some [⟨3, "my-openclaw", "initializing", none⟩]))
        ⟨some "tok", "my-openclaw"⟩).1 = ⟨true, some false, none, none⟩) ∧
    (checkServer (FetchR.bad ⟨some "forbidden", none⟩) ⟨some "tok", "my-openclaw"⟩).1 =
      ⟨false, none, some "Invalid API token", none⟩ :=
  c6_check_semantics ⟨some "tok", "my-openclaw"⟩ [⟨3, "my-openclaw", "initializing", none⟩]
    ⟨some "forbidden", none⟩ rfl (by decide)

/-- C3: the fallback order of server creation is the preferred location first,
followed by the fixed list `[fsn1, nbg1, hel1, ash, hil, sin]` with the
preferred location removed, in original order; in particular `hel1` gives
`[hel1, fsn1, nbg1, ash, hil, sin]`.  When every location fails with a
location-class error, the run attempts exactly that sequence. -/
theorem c3_location_fallback_order (env : Env) (req : ProvisionReq) (e : ApiErr)
    (htok : strTruthy req.apiToken = true)
    (hlist : env.listServers = FetchR.ok (some []))
    (hkey : req.sshKey = none)
    (hle : isLocationError e = true)
    (hfail : ∀ l, env.create l = FetchR.bad e) :
    locations "hel1" = ["hel1", "fsn1", "nbg1", "ash", "hil", "sin"] ∧
    createdLocs (provision env req).calls = locations req.location := by
  refine ⟨by decide, ?_⟩
  have hcl := createLoop_allFail env.create none e hle (locations req.location)
    (fun l _ => hfail l)
  simp only [provision, htok, hlist, Option.getD_some, List.find?_nil, newFlow, hkey, keyStep,
    sshKeysField]
  rw [hcl]
  dsimp only
  rw [List.nil_append, createdLocs_cons_listServers, createdLocs_map]

/-- C3 witness: every location rejected as unavailable, preferred `hel1`. -/
theorem c3_location_fallback_order_witness :
    locations "hel1" = ["hel1", "fsn1", "nbg1", "ash", "hil", "sin"] ∧
    createdLocs (provision
      { env0 with
          listServers := FetchR.ok (some []),
          create := fun _ => FetchR.bad ⟨some "location unavailable", none⟩ }
      ⟨some "tok", none, "openclaw", "hel1", "cax11"⟩).calls = locations "hel1" :=
  c3_location_fallback_order
    { env0 with
        listServers := FetchR.ok (some []),
        create := fun _ => FetchR.bad ⟨some "location unavailable", none⟩ }
    ⟨some "tok", none, "openclaw", "hel1", "cax11"⟩
    ⟨some "location unavailable", none⟩ rfl rfl rfl (by decide) (fun l => rfl)

/-- The status-poll calls of a replicated poll block all pass the poll
filter. -/
lemma length_filter_poll_replicate (n i : Nat) :
    ((List.replicate n (ApiCall.getServer i)).filter isPollCall).length = n := by
  rw [List.filter_replicate]
  simp [isPollCall]

/-- C4 counterexample: with a provider that never reports `running`, a
new-server run does NOT terminate with a Timeout-class error: it polls exactly
60 times, emits no error record at all, and ends with the success `done`
record after the bootstrap wait. -/
theorem c4_counterexample :
    ((provision envC4 reqC4).events.all fun ev => !ev.isError) = true ∧
    ((provision envC4 reqC4).calls.filter isPollCall).length = 60 ∧
    (provision envC4 reqC4).sleepSeconds = 60 * 3 + 120 ∧
    (provision envC4 reqC4).events.getLast? =
      some (Event.done
        ⟨"9.9.9.9", "openclaw", gatewayToken (List.replicate 32 0), none, none, 42⟩) := by
  refine ⟨?_, ?_, ?_, ?_⟩ <;> decide

/-- C4 amended: when the provider never reports `running` during boot
polling, the EXISTING-server wait loop terminates the run with the
Timeout-class error after exactly 60 polls of 3 seconds each; the NEW-server
wait loop stops polling after exactly 60 polls (180 seconds) but raises no
error — the run proceeds through the 120-second bootstrap wait and terminates
with the success `done` record. -/
theorem c4_amended_timeout
    (envA : Env) (reqA : ProvisionReq) (soA : Option (List HServer)) (srv : HServer)
    (envB : Env) (reqB : ProvisionReq) (r : CreateResp)
    (htokA : strTruthy reqA.apiToken = true)
    (hlistA : envA.listServers = FetchR.ok soA)
    (hfindA : (soA.getD []).find? (fun s => s.name == reqA.serverName) = some srv)
    (hipA : strTruthy srv.ip = true)
    (hstA : (srv.status == "running") = false)
    (hpollA : ∀ i, i < 60 → ∃ st, envA.poll i = JsonR.ok st ∧ st ≠ "running")
    (htokB : strTruthy reqB.apiToken = true)
    (hlistB : envB.listServers = FetchR.ok (some []))
    (hkeyB : reqB.sshKey = none)
    (hcreateB : envB.create reqB.location = FetchR.ok r)
    (hpollB : ∀ i, i < 60 → ∃ st, envB.poll i = JsonR.ok st ∧ st ≠ "running") :
    ((provision envA reqA).events.getLast? =
        some (Event.error "Server taking too long to start. Please check Hetzner Console.") ∧
      (provision envA reqA).sleepSeconds = 60 * 3 ∧
      ((provision envA reqA).calls.filter isPollCall).length = 60) ∧
    (((provision envB reqB).calls.filter isPollCall).length = 60 ∧
      (provision envB reqB).sleepSeconds = 60 * 3 + 120 ∧
      (∃ d, (provision envB reqB).events.getLast? = some (Event.done d)) ∧
      ((provision envB reqB).events.all fun ev => !ev.isError) = true) := by
  have hwA : waitLoop envA.poll 0 60 = WaitOut.exhausted :=
    waitLoop_exhausted_of envA.poll 60 0 (fun j h1 h2 => hpollA j (by omega))
  have hwB : waitLoop envB.poll 0 60 = WaitOut.exhausted :=
    waitLoop_exhausted_of envB.poll 60 0 (fun j h1 h2 => hpollB j (by omega))
  constructor
  · simp only [provision, htokA, hlistA, hfindA, existingFlow, hipA, hstA, hwA]
    refine ⟨by simp [List.getLast?], by trivial, ?_⟩
    simp only [List.filter_cons]
    rw [show isPollCall ApiCall.listServers = false from rfl]
    simp only [Bool.false_eq_true, if_false]
    exact length_filter_poll_replicate 60 srv.id
  · simp only [provision, htokB, hlistB, Option.getD_some, List.find?_nil, newFlow, hkeyB,
      keyStep, sshKeysField, locations, createLoop, hcreateB, hwB]
    refine ⟨?_, by trivial, ?_, ?_⟩
    · simp only [List.nil_append, List.filter_cons, List.filter_append]
      rw [show isPollCall ApiCall.listServers = false from rfl,
          show isPollCall (ApiCall.createServer reqB.location none) = false from rfl]
      simp only [Bool.false_eq_true, if_false, List.nil_append]
      rw [show (List.filter isPollCall [] : List ApiCall) = [] from rfl]
      simp only [List.nil_append, List.length_append, List.length_nil]
      rw [length_filter_poll_replicate 60 r.id]
    · refine ⟨⟨r.ip, reqB.serverName, gatewayToken envB.randomBytes,
        jsOrNull r.root_password, none, r.id⟩, ?_⟩
      simp [finishEvents, List.getLast?_append, List.getLast?]
    · simp [finishEvents, List.all_append, Event.isError]

/-- C4 witness: both timeout scenarios at the concrete oracles. -/
theorem c4_amended_timeout_witness :
    ((provision envC4x reqC4).events.getLast? =
        some (Event.error "Server taking too long to start. Please check Hetzner Console.") ∧
      (provision envC4x reqC4).sleepSeconds = 60 * 3 ∧
      ((provision envC4x reqC4).calls.filter isPollCall).length = 60) ∧
    (((provision envC4 reqC4).calls.filter isPollCall).length = 60 ∧
      (provision envC4 reqC4).sleepSeconds = 60 * 3 + 120 ∧
      (∃ d, (provision envC4 reqC4).events.getLast? = some (Event.done d)) ∧
      ((provision envC4 reqC4).events.all fun ev => !ev.isError) = true) :=
  c4_amended_timeout envC4x reqC4
    (some [⟨42, "openclaw", "initializing", some "9.9.9.9"⟩])
    ⟨42, "openclaw", "initializing", some "9.9.9.9"⟩
    envC4 reqC4 ⟨42, "9.9.9.9", none⟩
    rfl rfl (by decide) rfl (by decide)
    (fun i _ => ⟨"initializing", rfl, by decide⟩)
    rfl rfl rfl rfl
    (fun i _ => ⟨"initializing", rfl, by decide⟩)

/-- Prepending calls that are not server-create calls does not change the
first create call. -/
lemma firstCreateKeys_append_no_create (l1 l2 : List ApiCall)
    (h : ∀ c ∈ l1, isCreateCall c = false) :
    firstCreateKeys (l1 ++ l2) = firstCreateKeys l2 := by
  induction l1 with
  | nil => rfl
  | cons a rest ih =>
    have ha := h a (List.mem_cons_self a rest)
    have hrest := ih (fun c hc => h c (List.mem_cons_of_mem _ hc))
    cases a with
    | listServers => simpa [firstCreateKeys, List.filterMap_cons] using hrest
    | uploadKey n k => simpa [firstCreateKeys, List.filterMap_cons] using hrest
    | listKeys => simpa [firstCreateKeys, List.filterMap_cons] using hrest
    | createServer l ks => exact absurd ha (by simp [isCreateCall])
    | getServer i => simpa [firstCreateKeys, List.filterMap_cons] using hrest

/-- The first create call of a list starting with a create call. -/
lemma firstCreateKeys_cons_create (loc : String) (ks : Option (List Nat))
    (tail : List ApiCall) :
    firstCreateKeys (ApiCall.createServer loc ks :: tail) = some ks := rfl

/-- The `ssh_keys` field of the first create call a new-server run issues is
exactly the field built from the key id the key step resolved. -/
lemma newFlow_firstCreateKeys (env : Env) (req : ProvisionReq) (kid : Option Nat)
    (kevs : List Event) (kcalls : List ApiCall)
    (hk : keyStep env req.sshKey = KeyOut.ok kid kevs kcalls)
    (hkc : ∀ c ∈ kcalls, isCreateCall c = false) :
    firstCreateKeys (newFlow env req).calls = some (sshKeysField kid) := by
  simp only [newFlow, hk]
  have hhead : (createLoop env.create (sshKeysField kid) (locations req.location)).calls.head? =
      some (ApiCall.createServer req.location (sshKeysField kid)) :=
    createLoop_head_call env.create (sshKeysField kid) req.location _
  cases hc : createLoop env.create (sshKeysField kid) (locations req.location) with
  | success loc r cevs ccalls =>
    rw [hc] at hhead
    dsimp only [CreateOut.calls] at hhead
    cases ccalls with
    | nil => exact absurd hhead (by simp)
    | cons c0 ctail =>
      have hc0 : c0 = ApiCall.createServer req.location (sshKeysField kid) := by
        simpa using hhead
      subst hc0
      cases waitLoop env.poll 0 60 with
      | crashed m n =>
        dsimp only
        rw [List.append_assoc, firstCreateKeys_append_no_create _ _ hkc]
        rfl
      | running n =>
        dsimp only
        rw [List.append_assoc, firstCreateKeys_append_no_create _ _ hkc]
        rfl
      | exhausted =>
        dsimp only
        rw [List.append_assoc, firstCreateKeys_append_no_create _ _ hkc]
        rfl
  | fatal msg cevs ccalls =>
    rw [hc] at hhead
    dsimp only [CreateOut.calls] at hhead
    cases ccalls with
    | nil => exact absurd hhead (by simp)
    | cons c0 ctail =>
      have hc0 : c0 = ApiCall.createServer req.location (sshKeysField kid) := by
        simpa using hhead
      subst hc0
      dsimp only
      rw [firstCreateKeys_append_no_create _ _ hkc]
      rfl
  | exhausted cevs ccalls =>
    rw [hc] at hhead
    dsimp only [CreateOut.calls] at hhead
    cases ccalls with
    | nil => exact absurd hhead (by simp)
    | cons c0 ctail =>
      have hc0 : c0 = ApiCall.createServer req.location (sshKeysField kid) := by
        simpa using hhead
      subst hc0
      dsimp only
      rw [firstCreateKeys_append_no_create _ _ hkc]
      rfl
  | crashed m cevs ccalls =>
    rw [hc] at hhead
    dsimp only [CreateOut.calls] at hhead
    cases ccalls with
    | nil => exact absurd hhead (by simp)
    | cons c0 ctail =>
      have hc0 : c0 = ApiCall.createServer req.location (sshKeysField kid) := by
        simpa using hhead
      subst hc0
      dsimp only
      rw [firstCreateKeys_append_no_create _ _ hkc]
      rfl

/-- C5 counterexample: the claim describes the resolution prefix as the first
two WHITESPACE-delimited tokens, but the code splits on single spaces only
(`split(' ')`).  For the tab-separated submitted key `tabKey`, the stored key
(id 7) starts with the claimed whitespace-token prefix, so the claim predicts
the resolver uses id 7; the run instead computes a different prefix, finds no
match, and issues its server-create call with no key attached. -/
theorem c5_counterexample :
    strStartsWith "ssh-ed25519 AAAA user@host" (specFirstTwoTokens tabKey) = true ∧
    keyPre tabKey ≠ specFirstTwoTokens tabKey ∧
    firstCreateKeys (provision envC5 reqC5tab).calls = some none ∧
    ((provision envC5 reqC5tab).calls.all fun c =>
      !(c == ApiCall.createServer "fsn1" (some [7]))) = true := by
  refine ⟨by decide, by decide, by decide, by decide⟩

/-- C5 amended: the key step resolves nothing (no upload, no listing, no key
id) when the submitted key is absent, empty, or does not start with `ssh-`;
when the upload is rejected, the resolver searches the listed keys for a
record whose stored value starts with the prefix formed from the submitted
key's first two single-space-separated fields (`split(' ')` semantics) and
attaches that record's id to the server-create call; with no match the
server-create call carries no key ids, and the run still reaches the success
`done` record without any error record. -/
theorem c5_amended_key_resolution
    (envG : Env) (reqG : ProvisionReq)
    (envM : Env) (reqM : ProvisionReq) (kM : String) (eM : ApiErr)
    (keysM : List SSHKeyRec) (rM : SSHKeyRec)
    (envN : Env) (reqN : ProvisionReq) (kN : String) (eN : ApiErr)
    (keysN : List SSHKeyRec) (rcN : CreateResp)
    (hgateG : keyGate reqG.sshKey = false)
    (htokM : strTruthy reqM.apiToken = true)
    (hlistM : envM.listServers = FetchR.ok (some []))
    (hkM : reqM.sshKey = some kM)
    (hgateM : (decide (kM ≠ "") && strStartsWith kM "ssh-") = true)
    (hupM : envM.uploadKey = FetchR.bad eM)
    (hkeysM : envM.listKeys = JsonR.ok (some keysM))
    (hfindM : keysM.find? (fun r => strStartsWith r.public_key (keyPre kM)) = some rM)
    (hr0 : rM.id ≠ 0)
    (htokN : strTruthy reqN.apiToken = true)
    (hlistN : envN.listServers = FetchR.ok (some []))
    (hkN : reqN.sshKey = some kN)
    (hgateN : (decide (kN ≠ "") && strStartsWith kN "ssh-") = true)
    (hupN : envN.uploadKey = FetchR.bad eN)
    (hkeysN : envN.listKeys = JsonR.ok (some keysN))
    (hfindN : keysN.find? (fun r => strStartsWith r.public_key (keyPre kN)) = none)
    (hcreateN : envN.create reqN.location = FetchR.ok rcN)
    (hpollN : envN.poll 0 = JsonR.ok "running") :
    keyStep envG reqG.sshKey = KeyOut.ok none [] [] ∧
    firstCreateKeys (provision envM reqM).calls = some (some [rM.id]) ∧
    (firstCreateKeys (provision envN reqN).calls = some none ∧
      ((provision envN reqN).events.all fun ev => !ev.isError) = true ∧
      (∃ d, (provision envN reqN).events.getLast? = some (Event.done d))) := by
  have hls : ∀ c ∈ [ApiCall.listServers], isCreateCall c = false := by
    intro c hcm
    simp only [List.mem_singleton] at hcm
    subst hcm
    rfl
  have hkN2 : keyStep envN reqN.sshKey = KeyOut.ok none
      [Event.progress "🔐 Uploading SSH key..."]
      [ApiCall.uploadKey ("openclaw-wizard-" ++ toString envN.now) (jsTrim kN), ApiCall.listKeys] := by
    rw [hkN]
    simp only [keyStep, hgateN, hupN, hkeysN, Option.getD_some, hfindN]
  have hw : waitLoop envN.poll 0 60 = WaitOut.running 1 :=
    waitLoop_running_first envN.poll 59 hpollN
  refine ⟨keyStep_gate_false envG reqG.sshKey hgateG, ?_, ?_, ?_, ?_⟩
  · have hk : keyStep envM reqM.sshKey = KeyOut.ok (some rM.id)
        [Event.progress "🔐 Uploading SSH key...", Event.progress "✓ Using existing SSH key"]
        [ApiCall.uploadKey ("openclaw-wizard-" ++ toString envM.now) (jsTrim kM), ApiCall.listKeys] := by
      rw [hkM]
      simp only [keyStep, hgateM, hupM, hkeysM, Option.getD_some, hfindM]
    have hkc : ∀ c ∈ [ApiCall.uploadKey ("openclaw-wizard-" ++ toString envM.now) (jsTrim kM),
        ApiCall.listKeys], isCreateCall c = false := by
      intro c hcm
      simp only [List.mem_cons, List.not_mem_nil, or_false] at hcm
      rcases hcm with rfl | rfl <;> rfl
    simp only [provision, htokM, hlistM, Option.getD_some, List.find?_nil]
    show firstCreateKeys (ApiCall.listServers :: (newFlow envM reqM).calls) = some (some [rM.id])
    rw [show (ApiCall.listServers :: (newFlow envM reqM).calls)
          = [ApiCall.listServers] ++ (newFlow envM reqM).calls from rfl,
        firstCreateKeys_append_no_create _ _ hls,
        newFlow_firstCreateKeys envM reqM (some rM.id) _ _ hk hkc]
    simp [sshKeysField, hr0]
  · have hkc : ∀ c ∈ [ApiCall.uploadKey ("openclaw-wizard-" ++ toString envN.now) (jsTrim kN),
        ApiCall.listKeys], isCreateCall c = false := by
      intro c hcm
      simp only [List.mem_cons, List.not_mem_nil, or_false] at hcm
      rcases hcm with rfl | rfl <;> rfl
    simp only [provision, htokN, hlistN, Option.getD_some, List.find?_nil]
    show firstCreateKeys (ApiCall.listServers :: (newFlow envN reqN).calls) = some none
    rw [show (ApiCall.listServers :: (newFlow envN reqN).calls)
          = [ApiCall.listServers] ++ (newFlow envN reqN).calls from rfl,
        firstCreateKeys_append_no_create _ _ hls,
        newFlow_firstCreateKeys envN reqN none _ _ hkN2 hkc]
    rfl
  · simp only [provision, htokN, hlistN, Option.getD_some, List.find?_nil, newFlow, hkN2,
      locations, createLoop, hcreateN, hw]
    simp [finishEvents, Event.isError, List.all_append]
  · refine ⟨⟨rcN.ip, reqN.serverName, gatewayToken envN.randomBytes,
      jsOrNull rcN.root_password, none, rcN.id⟩, ?_⟩
    simp only [provision, htokN, hlistN, Option.getD_some, List.find?_nil, newFlow, hkN2,
      locations, createLoop, hcreateN, hw]
    simp [finishEvents, List.getLast?_append, List.getLast?]

/-- C5 witness: gating off at a non-`ssh-` key; resolution reusing stored
key 7 for a matching submitted key; and proceeding without a key for a
non-matching one. -/
theorem c5_amended_key_resolution_witness :
    keyStep envC5 (some "gibberish") = KeyOut.ok none [] [] ∧
    firstCreateKeys (provision envC5
      ⟨some "tok", some "ssh-ed25519 AAAA other@machine", "openclaw", "fsn1", "cax11"⟩).calls =
      some (some [7]) ∧
    (firstCreateKeys (provision envC5
        ⟨some "tok", some "ssh-rsa BBBB other@machine", "openclaw", "fsn1", "cax11"⟩).calls =
        some none ∧
      ((provision envC5
        ⟨some "tok", some "ssh-rsa BBBB other@machine", "openclaw", "fsn1", "cax11"⟩).events.all
          fun ev => !ev.isError) = true ∧
      (∃ d, (provision envC5
        ⟨some "tok", some "ssh-rsa BBBB other@machine", "openclaw", "fsn1", "cax11"⟩).events.getLast?
          = some (Event.done d))) :=
  c5_amended_key_resolution
    envC5 ⟨some "tok", some "gibberish", "openclaw", "fsn1", "cax11"⟩
    envC5 ⟨some "tok", some "ssh-ed25519 AAAA other@machine", "openclaw", "fsn1", "cax11"⟩
    "ssh-ed25519 AAAA other@machine" ⟨some "SSH key with the same fingerprint already exists", none⟩
    [⟨7, "ssh-ed25519 AAAA user@host"⟩] ⟨7, "ssh-ed25519 AAAA user@host"⟩
    envC5 ⟨some "tok", some "ssh-rsa BBBB other@machine", "openclaw", "fsn1", "cax11"⟩
    "ssh-rsa BBBB other@machine" ⟨some "SSH key with the same fingerprint already exists", none⟩
    [⟨7, "ssh-ed25519 AAAA user@host"⟩] ⟨42, "9.9.9.9", none⟩
    (by decide) rfl rfl rfl (by decide) rfl rfl (by decide) (by decide)
    rfl rfl rfl (by decide) rfl rfl (by decide) rfl rfl

/-- C8: a failed create call is retried with the next location exactly when
the provider error message contains the substring `location` or the error
code equals `unavailable`; any other create failure immediately ends the run
with a terminal error carrying the provider message (with a single create
attempt); exhausting every location ends the run with the
`No available locations` create error after attempting the whole fallback
list. -/
theorem c8_location_error_handling
    (create : String → FetchR CreateResp) (ks : Option (List Nat)) (loc : String)
    (rest : List String) (e : ApiErr)
    (envF : Env) (reqF : ProvisionReq) (eF : ApiErr)
    (envX : Env) (reqX : ProvisionReq) (eX : ApiErr)
    (hc : create loc = FetchR.bad e)
    (htokF : strTruthy reqF.apiToken = true)
    (hlistF : envF.listServers = FetchR.ok (some []))
    (hkeyF : reqF.sshKey = none)
    (hcF : envF.create reqF.location = FetchR.bad eF)
    (hnlF : isLocationError eF = false)
    (htokX : strTruthy reqX.apiToken = true)
    (hlistX : envX.listServers = FetchR.ok (some []))
    (hkeyX : reqX.sshKey = none)
    (hcX : ∀ l, envX.create l = FetchR.bad eX)
    (hlX : isLocationError eX = true) :
    (isLocationError e = true ↔
      ((∃ m, e.message = some m ∧ containsSubstr m "location" = true) ∨
        e.code = some "unavailable")) ∧
    (createLoop create ks (loc :: rest) =
        (createLoop create ks rest).prepend
          (Event.progress ("⚠️ Location " ++ loc ++ " unavailable, trying next..."))
          (ApiCall.createServer loc ks)
      ↔ isLocationError e = true) ∧
    ((provision envF reqF).events.getLast? =
        some (Event.error ("Failed to create server: " ++ jsOr eF.message "Unknown error")) ∧
      createdLocs (provision envF reqF).calls = [reqF.location]) ∧
    ((provision envX reqX).events.getLast? =
        some (Event.error "Failed to create server: No available locations. Please check your Hetzner account settings.") ∧
      createdLocs (provision envX reqX).calls = locations reqX.location) := by
  refine ⟨?_, ?_, ?_, ?_⟩
  · rcases e with ⟨msg, code⟩
    cases msg <;> simp [isLocationError]
  · constructor
    · intro heq
      cases hle2 : isLocationError e with
      | true => rfl
      | false =>
        simp only [createLoop, hc, hle2] at heq
        cases hrec : createLoop create ks rest <;>
          rw [hrec] at heq <;> simp [CreateOut.prepend] at heq
    · intro hle2
      simp only [createLoop, hc, hle2]
  · constructor
    · simp only [provision, htokF, hlistF, Option.getD_some, List.find?_nil, newFlow, hkeyF,
        keyStep, sshKeysField, locations, createLoop, hcF, hnlF]
      rw [← List.cons_append]
      exact List.getLast?_concat _
    · simp only [provision, htokF, hlistF, Option.getD_some, List.find?_nil, newFlow, hkeyF,
        keyStep, sshKeysField, locations, createLoop, hcF, hnlF]
      simp [createdLocs, List.filterMap_cons]
  · have hcl := createLoop_allFail envX.create none eX hlX (locations reqX.location)
      (fun l _ => hcX l)
    constructor
    · simp only [provision, htokX, hlistX, Option.getD_some, List.find?_nil, newFlow, hkeyX,
        keyStep, sshKeysField]
      rw [hcl]
      dsimp only
      rw [← List.cons_append]
      exact List.getLast?_concat _
    · simp only [provision, htokX, hlistX, Option.getD_some, List.find?_nil, newFlow, hkeyX,
        keyStep, sshKeysField]
      rw [hcl]
      dsimp only
      rw [List.nil_append, createdLocs_cons_listServers, createdLocs_map]

/-- C8 witness: a location-class failure retried, a quota-style failure fatal
after a single attempt, and full exhaustion under the `unavailable` code. -/
theorem c8_location_error_handling_witness :
    (isLocationError ⟨some "location capacity", none⟩ = true ↔
      ((∃ m, (⟨some "location capacity", none⟩ : ApiErr).message = some m ∧
          containsSubstr m "location" = true) ∨
        (⟨some "location capacity", none⟩ : ApiErr).code = some "unavailable")) ∧
    (createLoop (fun _ => FetchR.bad ⟨some "location capacity", none⟩) none ("fsn1" :: ["nbg1"]) =
        (createLoop (fun _ => FetchR.bad ⟨some "location capacity", none⟩) none ["nbg1"]).prepend
          (Event.progress ("⚠️ Location " ++ "fsn1" ++ " unavailable, trying next..."))
          (ApiCall.createServer "fsn1" none)
      ↔ isLocationError ⟨some "location capacity", none⟩ = true) ∧
    ((provision envC8F reqC8).events.getLast? =
        some (Event.error ("Failed to create server: " ++
          jsOr (⟨some "server limit exceeded", none⟩ : ApiErr).message "Unknown error")) ∧
      createdLocs (provision envC8F reqC8).calls = [reqC8.location]) ∧
    ((provision envC8X reqC8).events.getLast? =
        some (Event.error "Failed to create server: No available locations. Please check your Hetzner account settings.") ∧
      createdLocs (provision envC8X reqC8).calls = locations reqC8.location) :=
  c8_location_error_handling
    (fun _ => FetchR.bad ⟨some "location capacity", none⟩) none "fsn1" ["nbg1"]
    ⟨some "location capacity", none⟩
    envC8F reqC8 ⟨some "server limit exceeded", none⟩
    envC8X reqC8 ⟨none, some "unavailable"⟩
    rfl rfl rfl rfl rfl (by decide) rfl rfl rfl (fun l => rfl) (by decide)

end OCW
